import Mathlib

/-!
Shallow embedding of the drag-gesture recognition engine of the
ubuntu-ui-toolkit repository (`UCDragGesture` / `UCDragGesturePrivate` and
`ActiveTouchesInfo`), together with the parts of its environment that the
source file interacts with.  Coordinates (`qreal`) are modelled as rationals,
times (`qint64` / `int`) as integers.  Every function mirrors the
corresponding C++ member function; side effects towards the touch-ownership
broker and the Qt signal layer are modelled as an explicit list of emitted
actions.
-/

namespace DragGesture

/-- A 2-D point with rational coordinates, standing in for `QPointF`. -/
structure QPointF where
  x : ℚ
  y : ℚ
  deriving DecidableEq

/-- `Qt::TouchPointState` of a touch point inside a touch event. -/
inductive TouchPointState
  | pressed
  | moved
  | stationary
  | released
  deriving DecidableEq

/-- One touch point of a `QTouchEvent`: id, state, item-local position and
scene position. -/
structure TouchPoint where
  id : ℤ
  state : TouchPointState
  pos : QPointF
  scenePos : QPointF
  deriving DecidableEq

/-- `UCDragGesture::Direction`. -/
inductive Direction
  | Rightwards
  | Leftwards
  | Upwards
  | Downwards
  | Horizontal
  | Vertical
  deriving DecidableEq

/-- `UCDragGesturePrivate::Status`. -/
inductive Status
  | WaitingForTouch
  | Undecided
  | Recognized
  deriving DecidableEq

/-- `Direction::isHorizontal` from the source helper class. -/
def Direction.isHorizontal (t : Direction) : Bool :=
  decide (t = Direction.Leftwards) || decide (t = Direction.Rightwards) ||
    decide (t = Direction.Horizontal)

/-- `Direction::isVertical` from the source helper class. -/
def Direction.isVertical (t : Direction) : Bool :=
  decide (t = Direction.Upwards) || decide (t = Direction.Downwards) ||
    decide (t = Direction.Vertical)

/-- Modelled from the spec: the damped position filter (`DampedPointF` of the
UbuntuGestures support library is not present under src/).  Per axis, an
update moves the stored value toward the raw input by at most `maxDelta`
(clamped linear interpolation); `reset` sets the value with no smoothing. -/
structure DampedPointF where
  x : ℚ
  y : ℚ
  maxDelta : ℚ
  deriving DecidableEq

/-- One axis of the damped filter: move `current` toward `raw` by at most
`maxDelta`. -/
def clampToward (current raw maxDelta : ℚ) : ℚ :=
  if raw > current + maxDelta then current + maxDelta
  else if raw < current - maxDelta then current - maxDelta
  else raw

/-- `DampedPointF::update`. -/
def DampedPointF.update (d : DampedPointF) (p : QPointF) : DampedPointF :=
  { d with x := clampToward d.x p.x d.maxDelta, y := clampToward d.y p.y d.maxDelta }

/-- `DampedPointF::reset`. -/
def DampedPointF.reset (d : DampedPointF) (p : QPointF) : DampedPointF :=
  { d with x := p.x, y := p.y }

/-- `ActiveTouchInfo`: one record of the active-touch registry. -/
structure ActiveTouchInfo where
  id : ℤ
  startTime : ℤ
  deriving DecidableEq

/-- `ActiveTouchesInfo::mostRecentStartTime`: fold over the pool keeping the
highest start time, starting from `-1` as in the source. -/
def mostRecentStartTime (l : List ActiveTouchInfo) : ℤ :=
  l.foldl (fun acc t => if t.startTime > acc then t.startTime else acc) (-1)

/-- `ActiveTouchesInfo::addTouchPoint`: records a new active touch stamped
with the current time.  The source stores it in the first free slot of a
fixed-capacity pool; since iteration order only matters through first-match
lookups on distinct ids and through a maximum, a list append is an equivalent
model. -/
def addTouchPoint (l : List ActiveTouchInfo) (touchId now : ℤ) : List ActiveTouchInfo :=
  l ++ [{ id := touchId, startTime := now }]

/-- `ActiveTouchesInfo::removeTouchPoint`: frees the first slot whose id
matches; no-op when absent. -/
def removeTouchPoint : List ActiveTouchInfo → ℤ → List ActiveTouchInfo
  | [], _ => []
  | t :: rest, touchId =>
      if t.id = touchId then rest else t :: removeTouchPoint rest touchId

/-- `ActiveTouchesInfo::update`: adds the pressed and removes the released
touch points of an event.  (The source first tests whether the event carries
any pressed or released point, which does not change the result.) -/
def activeTouchesUpdate (l : List ActiveTouchInfo) (pts : List TouchPoint) (now : ℤ) :
    List ActiveTouchInfo :=
  pts.foldl (fun acc tp =>
    match tp.state with
    | TouchPointState.pressed => addTouchPoint acc tp.id now
    | TouchPointState.released => removeTouchPoint acc tp.id
    | _ => acc) l

/-- Actions emitted by the recognizer towards the touch-ownership broker
(`TouchRegistry`) and towards the Qt signal layer, in emission order. -/
inductive Action
  | removeCandidateOwnerForTouch (id : ℤ)
  | addCandidateOwnerForTouch (id : ℤ)
  | addTouchWatcher (id : ℤ)
  | requestTouchOwnership (id : ℤ)
  | grabTouchPoints (id : ℤ)
  | statusChanged (s : Status)
  | draggingChanged (b : Bool)
  | pressedChanged (b : Bool)
  | touchPosChanged (p : QPointF)
  | touchScenePosChanged (p : QPointF)
  | distanceChanged (d : ℚ)
  | sceneDistanceChanged (d : ℚ)
  | diagnosticWarning
  | diagnosticCritical
  deriving DecidableEq

/-- The mutable state of one `UCDragGesture` instance
(`UCDragGesturePrivate` fields, plus its embedded `ActiveTouchesInfo` pool
and the running flag of the recognition timer). -/
structure RecState where
  status : Status
  touchId : ℤ
  direction : Direction
  distanceThreshold : ℚ
  maxDistance : ℚ
  compositionTime : ℤ
  maxTime : ℤ
  immediateRecognition : Bool
  startPos : QPointF
  startScenePos : QPointF
  previousDampedScenePos : QPointF
  dampedScenePos : DampedPointF
  publicPos : QPointF
  publicScenePos : QPointF
  sceneDistance : ℚ
  sceneDirectionVector : QPointF
  timerRunning : Bool
  activeTouches : List ActiveTouchInfo
  deriving DecidableEq

/-- `UCDragGesturePrivate::projectOntoDirectionVector`: dot product with the
scene direction vector (a unit vector). -/
def projectOntoDirectionVector (st : RecState) (v : QPointF) : ℚ :=
  v.x * st.sceneDirectionVector.x + v.y * st.sceneDirectionVector.y

/-- `UCDragGesture::distance`. -/
def distance (st : RecState) : ℚ :=
  if Direction.isHorizontal st.direction then st.publicPos.x - st.startPos.x
  else st.publicPos.y - st.startPos.y

/-- `UCDragGesture::dragging`. -/
def dragging (st : RecState) : Bool :=
  decide (st.status = Status.Recognized)

/-- `UCDragGesture::pressed`. -/
def pressed (st : RecState) : Bool :=
  decide (st.status ≠ Status.WaitingForTouch)

/-- `UCDragGesturePrivate::updateSceneDistance`. -/
def updateSceneDistance (st : RecState) : RecState :=
  { st with sceneDistance := (projectOntoDirectionVector st
      (QPointF.mk (st.publicScenePos.x - st.startScenePos.x)
        (st.publicScenePos.y - st.startScenePos.y))) }

/-- `UCDragGesturePrivate::recognitionIsDisabled`. -/
def recognitionIsDisabled (st : RecState) : Bool :=
  st.immediateRecognition ||
    (decide (st.distanceThreshold ≤ 0) && decide (st.compositionTime ≤ 0))

/-- `UCDragGesturePrivate::sanityCheckRecognitionProperties`. -/
def sanityCheckRecognitionProperties (st : RecState) : Bool :=
  recognitionIsDisabled st ||
    (decide (st.distanceThreshold < st.maxDistance) &&
     decide (st.compositionTime < st.maxTime))

/-- The movement vector between the two most recent damped samples, projected
onto the direction vector (the local computation of
`movingInRightDirection`). -/
def perSampleProjection (st : RecState) : ℚ :=
  projectOntoDirectionVector st
    ⟨st.dampedScenePos.x - st.previousDampedScenePos.x,
     st.dampedScenePos.y - st.previousDampedScenePos.y⟩

/-- The total damped movement since the gesture start, projected onto the
direction vector (the local computation of
`movedFarEnoughAlongGestureAxis`). -/
def totalGestureProjection (st : RecState) : ℚ :=
  projectOntoDirectionVector st
    ⟨st.dampedScenePos.x - st.startScenePos.x,
     st.dampedScenePos.y - st.startScenePos.y⟩

/-- The squared (unprojected) length of the total damped movement since the
gesture start (the local computation of `isPastMaxDistance`). -/
def squaredDistanceFromStart (st : RecState) : ℚ :=
  (st.dampedScenePos.x - st.startScenePos.x) * (st.dampedScenePos.x - st.startScenePos.x) +
    (st.dampedScenePos.y - st.startScenePos.y) * (st.dampedScenePos.y - st.startScenePos.y)

/-- `UCDragGesturePrivate::movingInRightDirection`. -/
def movingInRightDirection (st : RecState) : Bool :=
  if st.direction = Direction.Horizontal ∨ st.direction = Direction.Vertical then true
  else decide (0 ≤ perSampleProjection st)

/-- `UCDragGesturePrivate::movedFarEnoughAlongGestureAxis`. -/
def movedFarEnoughAlongGestureAxis (st : RecState) : Bool :=
  if st.distanceThreshold ≤ 0 then true
  else if st.direction = Direction.Horizontal ∨ st.direction = Direction.Vertical then
    decide (abs (totalGestureProjection st) > st.distanceThreshold)
  else decide (totalGestureProjection st > st.distanceThreshold)

/-- `UCDragGesturePrivate::isPastMaxDistance`. -/
def isPastMaxDistance (st : RecState) : Bool :=
  decide (squaredDistanceFromStart st > st.maxDistance * st.maxDistance)

/-- `UCDragGesturePrivate::isWithinTouchCompositionWindow`. -/
def isWithinTouchCompositionWindow (st : RecState) (now : ℤ) : Bool :=
  decide (0 < st.compositionTime) && !st.activeTouches.isEmpty &&
    decide (now ≤ mostRecentStartTime st.activeTouches + st.compositionTime)

/-- `UCDragGesturePrivate::setStatus`: early return when the status does not
change; otherwise stops the recognition timer when leaving `Undecided`,
stores the new status, emits `statusChanged` and then the
dragging/pressed notifications of the switch statement. -/
def setStatus (st : RecState) (newStatus : Status) : RecState × List Action :=
  if newStatus = st.status then (st, [])
  else
    let oldStatus := st.status
    let timer1 := if oldStatus = Status.Undecided then false else st.timerRunning
    match newStatus with
    | Status.WaitingForTouch =>
        ({ st with status := newStatus, timerRunning := timer1 },
         Action.statusChanged newStatus ::
           (if oldStatus = Status.Recognized then [Action.draggingChanged false] else []) ++
           [Action.pressedChanged false])
    | Status.Undecided =>
        ({ st with status := newStatus, timerRunning := true },
         [Action.statusChanged newStatus, Action.pressedChanged true])
    | Status.Recognized =>
        ({ st with status := newStatus, timerRunning := timer1 },
         [Action.statusChanged newStatus, Action.draggingChanged true])

/-- The position-update step shared by `setPublicPos` and
`setPublicScenePos`: while `Recognized` (and recognition not disabled) the
stored position only moves 40% of the remaining delta toward the target
(0.4 steps, avoiding a visible jump at recognition); otherwise it is assigned
directly. -/
def smoothedToward (st : RecState) (current target : QPointF) : QPointF :=
  if st.status = Status.Recognized ∧ recognitionIsDisabled st = false then
    ⟨current.x + (2 / 5) * (target.x - current.x),
     current.y + (2 / 5) * (target.y - current.y)⟩
  else target

/-- `UCDragGesturePrivate::setPublicPos`: change flags are computed against
the raw target point; the stored position is moved by `smoothedToward`. -/
def setPublicPos (st : RecState) (point : QPointF) : RecState × List Action :=
  let newPos : QPointF := smoothedToward st st.publicPos point
  let st1 := { st with publicPos := newPos }
  let acts1 :=
    if st.publicPos.x ≠ point.x then
      Action.touchPosChanged newPos ::
        (if Direction.isHorizontal st.direction then [Action.distanceChanged (distance st1)]
         else [])
    else []
  let acts2 :=
    if st.publicPos.y ≠ point.y then
      Action.touchPosChanged newPos ::
        (if Direction.isVertical st.direction then [Action.distanceChanged (distance st1)]
         else [])
    else []
  (st1, acts1 ++ acts2)

/-- `UCDragGesturePrivate::setPublicScenePos`: early return when neither
coordinate changes (the source computes `xChanged`/`yChanged` flags and
returns when both are false, so past the early return
`xChanged || yChanged` holds and `touchScenePosChanged` always fires);
otherwise the stored scene position is updated (with the same 40% smoothing
while `Recognized`), the scene distance recomputed, and notifications
emitted. -/
def setPublicScenePos (st : RecState) (point : QPointF) : RecState × List Action :=
  if st.publicScenePos.x = point.x ∧ st.publicScenePos.y = point.y then (st, [])
  else
    let newPos : QPointF := smoothedToward st st.publicScenePos point
    let st1 := updateSceneDistance { st with publicScenePos := newPos }
    let acts1 :=
      if st.sceneDistance ≠ st1.sceneDistance then
        [Action.sceneDistanceChanged st1.sceneDistance]
      else []
    (st1, acts1 ++ [Action.touchScenePosChanged newPos])

/-- `UCDragGesturePrivate::fetchTargetTouchPoint`: the first touch point of
the event carrying the candidate touch id. -/
def fetchTargetTouchPoint (st : RecState) (pts : List TouchPoint) : Option TouchPoint :=
  pts.find? (fun tp => decide (tp.id = st.touchId))

/-- `UCDragGesturePrivate::watchPressedTouchPoints`: registers a lifecycle
watcher for every pressed touch point of the event. -/
def watchPressedTouchPoints (pts : List TouchPoint) : List Action :=
  (pts.filter (fun tp => decide (tp.state = TouchPointState.pressed))).map
    (fun tp => Action.addTouchWatcher tp.id)

/-- The damped-filter refit done at the top of the moved-touch path of
`unownedTouchEvent_undecided`: remember the previous damped sample and feed
the new raw scene position through the filter. -/
def dampUpdate (st : RecState) (touchScenePos : QPointF) : RecState :=
  { st with
      previousDampedScenePos := ⟨st.dampedScenePos.x, st.dampedScenePos.y⟩,
      dampedScenePos := st.dampedScenePos.update touchScenePos }

/-- The local unit vector of each direction, as in the switch of
`updateSceneDirectionVector`.  The source maps it through `mapToScene` and
subtracts the mapped origin, which under the translation-only item transforms
of the scene yields the local vector unchanged. -/
def localDirectionVector : Direction → QPointF
  | Direction.Upwards => ⟨0, -1⟩
  | Direction.Downwards => ⟨0, 1⟩
  | Direction.Vertical => ⟨0, 1⟩
  | Direction.Leftwards => ⟨-1, 0⟩
  | _ => ⟨1, 0⟩

/-- `UCDragGesturePrivate::updateSceneDirectionVector`. -/
def updateSceneDirectionVector (st : RecState) : RecState :=
  { st with sceneDirectionVector := localDirectionVector st.direction }

/-- `UCDragGesturePrivate::unownedTouchEvent_undecided`. -/
def unownedTouchEvent_undecided (st : RecState) (pts : List TouchPoint) (now : ℤ) :
    RecState × List Action :=
  match fetchTargetTouchPoint st pts with
  | none =>
      let r := setStatus st Status.WaitingForTouch
      (r.1, Action.diagnosticCritical ::
        Action.removeCandidateOwnerForTouch st.touchId :: r.2)
  | some tp =>
      if tp.state = TouchPointState.released then
        let r := setStatus st Status.WaitingForTouch
        (r.1, Action.removeCandidateOwnerForTouch st.touchId :: r.2)
      else
        let st1 := dampUpdate st tp.scenePos
        if !movingInRightDirection st1 then
          let r := setStatus st1 Status.WaitingForTouch
          (r.1, Action.removeCandidateOwnerForTouch st1.touchId ::
            Action.addTouchWatcher st1.touchId :: r.2)
        else if isWithinTouchCompositionWindow st1 now then (st1, [])
        else if movedFarEnoughAlongGestureAxis st1 then
          let r := setStatus st1 Status.Recognized
          let r2 := setPublicPos r.1 tp.pos
          let r3 := setPublicScenePos r2.1 tp.scenePos
          (r3.1, Action.requestTouchOwnership st1.touchId :: r.2 ++ r2.2 ++ r3.2)
        else if isPastMaxDistance st1 then
          let r := setStatus st1 Status.WaitingForTouch
          (r.1, Action.removeCandidateOwnerForTouch st1.touchId ::
            Action.addTouchWatcher st1.touchId :: r.2)
        else (st1, [])

/-- `UCDragGesturePrivate::unownedTouchEvent`: dispatch on the status, then
update the active-touch registry with the event. -/
def unownedTouchEvent (st : RecState) (pts : List TouchPoint) (now : ℤ) :
    RecState × List Action :=
  let r :=
    match st.status with
    | Status.Undecided => unownedTouchEvent_undecided st pts now
    | _ => (st, [])
  ({ r.1 with activeTouches := activeTouchesUpdate r.1.activeTouches pts now }, r.2)

/-- The scan of the pressed touch points in `touchEvent_absent`: walks the
list while `allGood` holds, remembering the first pressed point and clearing
`allGood` when a second pressed point shows up. -/
def scanPresses : List TouchPoint → Option TouchPoint → Bool × Option TouchPoint
  | [], acc => (true, acc)
  | tp :: rest, acc =>
      if tp.state = TouchPointState.pressed then
        match acc with
        | some _ => (false, acc)
        | none => scanPresses rest (some tp)
      else scanPresses rest acc

/-- `UCDragGesturePrivate::touchEvent_absent`.  The third component models the
`accept`/`ignore` verdict on the event: `some true` accepted, `some false`
ignored, `none` untouched. -/
def touchEvent_absent (st : RecState) (pts : List TouchPoint) (now : ℤ) :
    RecState × List Action × Option Bool :=
  if !(pts.any (fun tp => decide (tp.state = TouchPointState.pressed))) then (st, [], none)
  else if isWithinTouchCompositionWindow st now then
    (st, watchPressedTouchPoints pts, some false)
  else
    match scanPresses pts none with
    | (false, _) => (st, watchPressedTouchPoints pts, some false)
    | (true, none) => (st, watchPressedTouchPoints pts, some false)
    | (true, some ntp) =>
        if sanityCheckRecognitionProperties st = false then
          (st, Action.diagnosticWarning :: watchPressedTouchPoints pts, some false)
        else
          let st1 := { st with
            startPos := ntp.pos,
            startScenePos := ntp.scenePos,
            touchId := ntp.id,
            dampedScenePos := st.dampedScenePos.reset ntp.scenePos }
          let r2 := setPublicPos st1 ntp.pos
          let r3 := setPublicScenePos r2.1 ntp.scenePos
          let st4 := updateSceneDirectionVector r3.1
          if recognitionIsDisabled st4 then
            let r5 := setStatus st4 Status.Recognized
            (r5.1, r2.2 ++ r3.2 ++ Action.requestTouchOwnership st4.touchId :: r5.2, some true)
          else
            let r5 := setStatus st4 Status.Undecided
            (r5.1, r2.2 ++ r3.2 ++ Action.addCandidateOwnerForTouch st4.touchId :: r5.2,
             some false)

/-- `UCDragGesturePrivate::touchEvent_undecided`. -/
def touchEvent_undecided (st : RecState) (pts : List TouchPoint) (now : ℤ) :
    RecState × List Action × Option Bool :=
  let watchActs := watchPressedTouchPoints pts
  if pts.any (fun tp => decide (tp.state = TouchPointState.pressed)) &&
      isWithinTouchCompositionWindow st now then
    let r := setStatus st Status.WaitingForTouch
    (r.1, watchActs ++ Action.removeCandidateOwnerForTouch st.touchId ::
      Action.addTouchWatcher st.touchId :: r.2, some false)
  else (st, watchActs, some false)

/-- `UCDragGesturePrivate::touchEvent_recognized`. -/
def touchEvent_recognized (st : RecState) (pts : List TouchPoint) :
    RecState × List Action :=
  match fetchTargetTouchPoint st pts with
  | none =>
      let r := setStatus st Status.WaitingForTouch
      (r.1, Action.diagnosticCritical :: r.2)
  | some tp =>
      let r1 := setPublicPos st tp.pos
      let r2 := setPublicScenePos r1.1 tp.scenePos
      if tp.state = TouchPointState.released then
        let r3 := setStatus r2.1 Status.WaitingForTouch
        (r3.1, r1.2 ++ r2.2 ++ r3.2)
      else (r2.1, r1.2 ++ r2.2)

/-- `UCDragGesture::touchEvent`: guarded by enabled/visible, dispatch on the
status, then update the active-touch registry. -/
def touchEvent (st : RecState) (enabled visible : Bool) (pts : List TouchPoint) (now : ℤ) :
    RecState × List Action × Option Bool :=
  if !enabled || !visible then (st, [], none)
  else
    let r :=
      match st.status with
      | Status.WaitingForTouch => touchEvent_absent st pts now
      | Status.Undecided => touchEvent_undecided st pts now
      | Status.Recognized =>
          let r0 := touchEvent_recognized st pts
          (r0.1, r0.2, none)
    ({ r.1 with activeTouches := activeTouchesUpdate r.1.activeTouches pts now },
     r.2.1, r.2.2)

/-- `UCDragGesturePrivate::rejectGesture` (the recognition-timer timeout
slot). -/
def rejectGesture (st : RecState) : RecState × List Action :=
  if st.status = Status.Undecided then
    let r := setStatus st Status.WaitingForTouch
    (r.1, Action.removeCandidateOwnerForTouch st.touchId ::
      Action.addTouchWatcher st.touchId :: r.2)
  else (st, [])

/-- `UCDragGesturePrivate::touchOwnershipEvent`: on gain, grab the touch
points of the event's id; on loss, register a lifecycle watcher for the
candidate touch id and reset to `WaitingForTouch`. -/
def touchOwnershipEvent (st : RecState) (gained : Bool) (eventTouchId : ℤ) :
    RecState × List Action :=
  if gained then (st, [Action.grabTouchPoints eventTouchId])
  else
    let r := setStatus st Status.WaitingForTouch
    (r.1, Action.addTouchWatcher st.touchId :: r.2)

/-- One recognizer instance registered with the broker, identified by `rid`. -/
structure Recognizer where
  rid : ℕ
  st : RecState
  deriving DecidableEq

/-- The process-wide broker state: the ownership map (touch id to owning
recognizer id, as an association list) and the recognizer instances. -/
structure BrokerSystem where
  ownershipMap : List (ℤ × ℕ)
  recognizers : List Recognizer
  deriving DecidableEq

/-- Ownership notifications delivered by the broker. -/
inductive OwnershipNotification
  | gained (rid : ℕ) (touchId : ℤ)
  | lost (rid : ℕ) (touchId : ℤ)
  deriving DecidableEq

/-- A recognizer still holds partial ownership state for a touch id when that
id is its candidate touch and it is not idle. -/
def holdsStateFor (rec : Recognizer) (touchId : ℤ) : Bool :=
  decide (rec.st.touchId = touchId) && decide (rec.st.status ≠ Status.WaitingForTouch)

/-- Modelled from the spec: `TouchRegistry::requestTouchOwnership` (the broker
is not present under src/).  Ownership of the touch id is granted immediately
to the requester (first-requester-wins): the ownership map is updated to an
entry for the requester, an ownership-gained notification is delivered
synchronously to it, and every other recognizer still holding partial
ownership state for the same identifier receives an ownership-lost
notification; each recipient handles its notification with the
source-derived `touchOwnershipEvent`. -/
def requestTouchOwnership (sys : BrokerSystem) (touchId : ℤ) (r : ℕ) :
    BrokerSystem × List OwnershipNotification :=
  let losers := sys.recognizers.filter
    (fun rec => decide (rec.rid ≠ r) && holdsStateFor rec touchId)
  let recognizers1 := sys.recognizers.map (fun rec =>
    if rec.rid = r then { rec with st := (touchOwnershipEvent rec.st true touchId).1 }
    else if holdsStateFor rec touchId then
      { rec with st := (touchOwnershipEvent rec.st false touchId).1 }
    else rec)
  ({ ownershipMap := (touchId, r) :: sys.ownershipMap.filter (fun e => decide (e.1 ≠ touchId)),
     recognizers := recognizers1 },
   OwnershipNotification.gained r touchId ::
     losers.map (fun rec => OwnershipNotification.lost rec.rid touchId))

/-- The no-op-suppression contract of the outbound notifications: an emitted
notification is sound when the value it reports differs between the state
before and the state after the call (broker commands and diagnostics carry no
value and are always sound). -/
def notifReflectsChange (pre post : RecState) : Action → Bool
  | Action.statusChanged s =>
      decide (post.status = s) && decide (pre.status ≠ post.status)
  | Action.draggingChanged b =>
      decide (dragging post = b) && decide (dragging pre ≠ b)
  | Action.pressedChanged b =>
      decide (pressed post = b) && decide (pressed pre ≠ b)
  | Action.touchPosChanged p =>
      decide (post.publicPos = p) && decide (pre.publicPos ≠ post.publicPos)
  | Action.touchScenePosChanged p =>
      decide (post.publicScenePos = p) && decide (pre.publicScenePos ≠ post.publicScenePos)
  | Action.distanceChanged d =>
      decide (distance post = d) && decide (distance pre ≠ distance post)
  | Action.sceneDistanceChanged d =>
      decide (post.sceneDistance = d) && decide (pre.sceneDistance ≠ post.sceneDistance)
  | _ => true

/-- A concrete recognizer state used by the witnesses and counterexamples:
a `Rightwards` recognizer with the default thresholds of the source
constructor (`distanceThreshold` is given its density-scaled value 10 here),
idle and with an empty registry. -/
def baseState : RecState where
  status := Status.WaitingForTouch
  touchId := -1
  direction := Direction.Rightwards
  distanceThreshold := 10
  maxDistance := 100
  compositionTime := 60
  maxTime := 400
  immediateRecognition := false
  startPos := ⟨0, 0⟩
  startScenePos := ⟨0, 0⟩
  previousDampedScenePos := ⟨0, 0⟩
  dampedScenePos := ⟨0, 0, 1000⟩
  publicPos := ⟨0, 0⟩
  publicScenePos := ⟨0, 0⟩
  sceneDistance := 0
  sceneDirectionVector := ⟨1, 0⟩
  timerRunning := false
  activeTouches := []

/-- A concrete state in the middle of recognition: `Undecided` on touch 7,
which pressed at time 0 at the scene origin and whose damped position has
meanwhile travelled to x = 99. -/
def undecidedState : RecState :=
  { baseState with
      status := Status.Undecided,
      touchId := 7,
      previousDampedScenePos := ⟨98, 0⟩,
      dampedScenePos := ⟨99, 0, 1000⟩,
      timerRunning := true,
      activeTouches := [⟨7, 0⟩] }

/-- A touch-update sample for touch 7 moving slightly back leftwards, to
scene x = 98. -/
def backwardPoint : TouchPoint :=
  { id := 7, state := TouchPointState.moved, pos := ⟨98, 0⟩, scenePos := ⟨98, 0⟩ }

/-- A concrete `Undecided` state whose damped position has wandered mostly
sideways: little progress along the `Rightwards` axis but a large raw
distance from the start. -/
def sidewaysState : RecState :=
  { baseState with
      status := Status.Undecided,
      touchId := 7,
      previousDampedScenePos := ⟨4, 199⟩,
      dampedScenePos := ⟨4, 199, 1000⟩,
      timerRunning := true,
      activeTouches := [⟨7, 0⟩] }

/-- A touch-update sample for touch 7 continuing sideways to scene (5, 200). -/
def sidewaysPoint : TouchPoint :=
  { id := 7, state := TouchPointState.moved, pos := ⟨5, 200⟩, scenePos := ⟨5, 200⟩ }

/-- A touch-update sample for touch 7 moving forward to scene (15, 0),
beyond the distance threshold of `undecidedState`-like configurations. -/
def forwardPoint : TouchPoint :=
  { id := 7, state := TouchPointState.moved, pos := ⟨15, 0⟩, scenePos := ⟨15, 0⟩ }

/-- A concrete `Undecided` state right after the press of touch 7 at the
scene origin. -/
def freshUndecidedState : RecState :=
  { baseState with
      status := Status.Undecided,
      touchId := 7,
      previousDampedScenePos := ⟨0, 0⟩,
      dampedScenePos := ⟨0, 0, 1000⟩,
      timerRunning := true,
      activeTouches := [⟨7, 0⟩] }

/-- A press of a second touch (id 8) at the scene origin. -/
def secondPressPoint : TouchPoint :=
  { id := 8, state := TouchPointState.pressed, pos := ⟨0, 0⟩, scenePos := ⟨0, 0⟩ }

/-- An idle recognizer with an inconsistent configuration: its distance
threshold (200) is not below its maximum distance (100) although recognition
is not immediate/disabled. -/
def badConfigState : RecState :=
  { baseState with distanceThreshold := 200, maxDistance := 100 }

/-- A press of touch 7 at the scene origin. -/
def pressPoint : TouchPoint :=
  { id := 7, state := TouchPointState.pressed, pos := ⟨0, 0⟩, scenePos := ⟨0, 0⟩ }

/-- A two-recognizer broker system: recognizer 0 is `Undecided` on touch 7,
recognizer 1 (also tracking touch 7) is about to request ownership; nothing
is owned yet. -/
def demoSystem : BrokerSystem :=
  { ownershipMap := [],
    recognizers := [⟨0, undecidedState⟩, ⟨1, undecidedState⟩] }

theorem setStatus_status (st : RecState) (s : Status) : (setStatus st s).1.status = s := by
  unfold setStatus
  by_cases h : s = st.status
  · simp [h]
  · cases s <;> simp [h]

theorem setStatus_touchId (st : RecState) (s : Status) :
    (setStatus st s).1.touchId = st.touchId := by
  unfold setStatus
  by_cases h : s = st.status
  · simp [h]
  · cases s <;> simp [h]

theorem setPublicPos_status (st : RecState) (p : QPointF) :
    (setPublicPos st p).1.status = st.status := by
  unfold setPublicPos
  by_cases h : st.status = Status.Recognized ∧ recognitionIsDisabled st = false <;> simp [h]

theorem setPublicScenePos_status (st : RecState) (p : QPointF) :
    (setPublicScenePos st p).1.status = st.status := by
  unfold setPublicScenePos updateSceneDistance
  split
  · rfl
  · rfl

theorem dampUpdate_direction (st : RecState) (p : QPointF) :
    (dampUpdate st p).direction = st.direction := rfl

theorem dampUpdate_touchId (st : RecState) (p : QPointF) :
    (dampUpdate st p).touchId = st.touchId := rfl

theorem dampUpdate_status (st : RecState) (p : QPointF) :
    (dampUpdate st p).status = st.status := rfl

theorem setStatus_undecided_to_waiting (st : RecState) (h : st.status = Status.Undecided) :
    (setStatus st Status.WaitingForTouch).2 =
      [Action.statusChanged Status.WaitingForTouch, Action.pressedChanged false] := by
  unfold setStatus
  rw [h]
  simp

theorem unowned_reject_wrongDirection (st : RecState) (pts : List TouchPoint) (now : ℤ)
    (tp : TouchPoint) (hstat : st.status = Status.Undecided)
    (hfetch : fetchTargetTouchPoint st pts = some tp)
    (hrel : tp.state ≠ TouchPointState.released)
    (hmov : movingInRightDirection (dampUpdate st tp.scenePos) = false) :
    (unownedTouchEvent st pts now).1.status = Status.WaitingForTouch ∧
    (unownedTouchEvent st pts now).2 =
      [Action.removeCandidateOwnerForTouch st.touchId, Action.addTouchWatcher st.touchId,
       Action.statusChanged Status.WaitingForTouch, Action.pressedChanged false] := by
  have hacts := setStatus_undecided_to_waiting (dampUpdate st tp.scenePos)
    (by rw [dampUpdate_status]; exact hstat)
  unfold unownedTouchEvent
  rw [hstat]
  simp only [unownedTouchEvent_undecided, hfetch]
  simp [hrel, hmov, setStatus_status, hacts, dampUpdate_touchId]

theorem unowned_reject_pastMax (st : RecState) (pts : List TouchPoint) (now : ℤ)
    (tp : TouchPoint) (hstat : st.status = Status.Undecided)
    (hfetch : fetchTargetTouchPoint st pts = some tp)
    (hrel : tp.state ≠ TouchPointState.released)
    (hmov : movingInRightDirection (dampUpdate st tp.scenePos) = true)
    (hwin : isWithinTouchCompositionWindow (dampUpdate st tp.scenePos) now = false)
    (hfar : movedFarEnoughAlongGestureAxis (dampUpdate st tp.scenePos) = false)
    (hpast : isPastMaxDistance (dampUpdate st tp.scenePos) = true) :
    (unownedTouchEvent st pts now).1.status = Status.WaitingForTouch ∧
    (unownedTouchEvent st pts now).2 =
      [Action.removeCandidateOwnerForTouch st.touchId, Action.addTouchWatcher st.touchId,
       Action.statusChanged Status.WaitingForTouch, Action.pressedChanged false] := by
  have hacts := setStatus_undecided_to_waiting (dampUpdate st tp.scenePos)
    (by rw [dampUpdate_status]; exact hstat)
  unfold unownedTouchEvent
  rw [hstat]
  simp only [unownedTouchEvent_undecided, hfetch]
  simp [hrel, hmov, hwin, hfar, hpast, setStatus_status, hacts, dampUpdate_touchId]

theorem unowned_recognize (st : RecState) (pts : List TouchPoint) (now : ℤ)
    (tp : TouchPoint) (hstat : st.status = Status.Undecided)
    (hfetch : fetchTargetTouchPoint st pts = some tp)
    (hrel : tp.state ≠ TouchPointState.released)
    (hmov : movingInRightDirection (dampUpdate st tp.scenePos) = true)
    (hwin : isWithinTouchCompositionWindow (dampUpdate st tp.scenePos) now = false)
    (hfar : movedFarEnoughAlongGestureAxis (dampUpdate st tp.scenePos) = true) :
    (unownedTouchEvent st pts now).1.status = Status.Recognized ∧
    Action.requestTouchOwnership st.touchId ∈ (unownedTouchEvent st pts now).2 := by
  unfold unownedTouchEvent
  rw [hstat]
  simp only [unownedTouchEvent_undecided, hfetch]
  simp [hrel, hmov, hwin, hfar, setStatus_status, setPublicPos_status,
    setPublicScenePos_status, dampUpdate_touchId]

theorem unowned_wait_withinWindow (st : RecState) (pts : List TouchPoint) (now : ℤ)
    (tp : TouchPoint) (hstat : st.status = Status.Undecided)
    (hfetch : fetchTargetTouchPoint st pts = some tp)
    (hrel : tp.state ≠ TouchPointState.released)
    (hmov : movingInRightDirection (dampUpdate st tp.scenePos) = true)
    (hwin : isWithinTouchCompositionWindow (dampUpdate st tp.scenePos) now = true) :
    (unownedTouchEvent st pts now).1.status = Status.Undecided ∧
    (unownedTouchEvent st pts now).2 = [] := by
  unfold unownedTouchEvent
  rw [hstat]
  simp only [unownedTouchEvent_undecided, hfetch]
  simp [hrel, hmov, hwin, dampUpdate_status, hstat]

/-- C10: the public accessor `dragging()` is true exactly when the status is
`Recognized`, `pressed()` is true exactly when the status is not
`WaitingForTouch`, and consequently `dragging()` implies `pressed()` in every
state. -/
theorem uc_c10_dragging_pressed :
    ∀ st : RecState,
      (dragging st = true ↔ st.status = Status.Recognized) ∧
      (pressed st = true ↔ st.status ≠ Status.WaitingForTouch) ∧
      (dragging st = true → pressed st = true) := by
  intro st
  refine ⟨?_, ?_, ?_⟩ <;> cases h : st.status <;> simp [dragging, pressed, h]

theorem uc_c10_witness :
    (dragging baseState = true ↔ baseState.status = Status.Recognized) ∧
    (pressed baseState = true ↔ baseState.status ≠ Status.WaitingForTouch) ∧
    (dragging baseState = true → pressed baseState = true) :=
  uc_c10_dragging_pressed baseState

theorem foldl_startTime_spec (l : List ActiveTouchInfo) :
    ∀ init : ℤ,
      init ≤ l.foldl (fun acc t => if t.startTime > acc then t.startTime else acc) init ∧
      ((l.foldl (fun acc t => if t.startTime > acc then t.startTime else acc) init = init) ∨
        ∃ t ∈ l,
          l.foldl (fun acc t => if t.startTime > acc then t.startTime else acc) init
            = t.startTime) ∧
      ∀ t ∈ l,
        t.startTime ≤ l.foldl (fun acc t => if t.startTime > acc then t.startTime else acc) init := by
  induction l with
  | nil => intro init; simp
  | cons hd tl ih =>
      intro init
      simp only [List.foldl_cons]
      obtain ⟨ih1, ih2, ih3⟩ := ih (if hd.startTime > init then hd.startTime else init)
      refine ⟨?_, ?_, ?_⟩
      · exact le_trans (by split <;> omega) ih1
      · rcases ih2 with h | ⟨t, ht, h⟩
        · by_cases hc : hd.startTime > init
          · right
            exact ⟨hd, List.mem_cons_self _ _, by rw [h]; simp [hc]⟩
          · left
            rw [h]; simp [hc]
        · right
          exact ⟨t, List.mem_cons_of_mem _ ht, h⟩
      · intro t ht
        rcases List.mem_cons.mp ht with rfl | ht'
        · exact le_trans (by split <;> omega) ih1
        · exact ih3 t ht'

/-- C9: for every non-empty active-touch registry (whose start times are
genuine timestamps, hence nonnegative), `mostRecentStartTime` returns the
maximum start time among the active records; on an empty registry the source
asserts, and its caller `isWithinTouchCompositionWindow` checks emptiness
first, evaluating to false on an empty registry. -/
theorem uc_c9_mostRecentStartTime :
    (∀ l : List ActiveTouchInfo, l ≠ [] → (∀ t ∈ l, 0 ≤ t.startTime) →
        (∃ t ∈ l, mostRecentStartTime l = t.startTime) ∧
          ∀ t ∈ l, t.startTime ≤ mostRecentStartTime l) ∧
    (∀ (st : RecState) (now : ℤ), st.activeTouches = [] →
        isWithinTouchCompositionWindow st now = false) := by
  constructor
  · intro l hne hpos
    obtain ⟨h1, h2, h3⟩ := foldl_startTime_spec l (-1)
    constructor
    · rcases h2 with h | h
      · exfalso
        obtain ⟨t, ht⟩ := List.exists_mem_of_ne_nil l hne
        have h4 := h3 t ht
        have h5 := hpos t ht
        rw [h] at h4
        omega
      · exact h
    · exact h3
  · intro st now h
    simp [isWithinTouchCompositionWindow, h]

theorem uc_c9_witness :
    (([⟨7, 5⟩, ⟨8, 3⟩] : List ActiveTouchInfo) ≠ [] ∧
      ∀ t ∈ ([⟨7, 5⟩, ⟨8, 3⟩] : List ActiveTouchInfo), 0 ≤ t.startTime) ∧
    (∃ t ∈ ([⟨7, 5⟩, ⟨8, 3⟩] : List ActiveTouchInfo),
        mostRecentStartTime [⟨7, 5⟩, ⟨8, 3⟩] = t.startTime) ∧
    ∀ t ∈ ([⟨7, 5⟩, ⟨8, 3⟩] : List ActiveTouchInfo),
      t.startTime ≤ mostRecentStartTime [⟨7, 5⟩, ⟨8, 3⟩] :=
  ⟨⟨by decide, by decide⟩,
    uc_c9_mostRecentStartTime.1 [⟨7, 5⟩, ⟨8, 3⟩] (by decide) (by decide)⟩

/-- C4: in state `Undecided`, for a moving update of the candidate touch
under a signed direction configuration, a negative scalar projection of the
per-sample damped movement onto the direction vector rejects the gesture back
to `WaitingForTouch` regardless of its magnitude; for the symmetric
`Horizontal` and `Vertical` configurations the direction check never
rejects. -/
theorem uc_c4_direction_check :
    (∀ (st : RecState) (pts : List TouchPoint) (now : ℤ) (tp : TouchPoint),
        st.status = Status.Undecided →
        fetchTargetTouchPoint st pts = some tp →
        tp.state ≠ TouchPointState.released →
        st.direction ≠ Direction.Horizontal →
        st.direction ≠ Direction.Vertical →
        perSampleProjection (dampUpdate st tp.scenePos) < 0 →
        (unownedTouchEvent st pts now).1.status = Status.WaitingForTouch) ∧
    (∀ st : RecState,
        (st.direction = Direction.Horizontal ∨ st.direction = Direction.Vertical) →
        movingInRightDirection st = true) := by
  constructor
  · intro st pts now tp hstat hfetch hrel hdh hdv hproj
    have hmov : movingInRightDirection (dampUpdate st tp.scenePos) = false := by
      unfold movingInRightDirection
      rw [if_neg]
      · exact decide_eq_false hproj.not_le
      · rw [dampUpdate_direction]
        rintro (h | h) <;> [exact hdh h; exact hdv h]
    unfold unownedTouchEvent
    rw [hstat]
    simp only [unownedTouchEvent_undecided, hfetch, if_neg hrel, hmov]
    simp [setStatus_status]
  · intro st hdir
    unfold movingInRightDirection
    rw [if_pos hdir]

theorem uc_c4_witness :
    (undecidedState.status = Status.Undecided ∧
      fetchTargetTouchPoint undecidedState [backwardPoint] = some backwardPoint ∧
      backwardPoint.state ≠ TouchPointState.released ∧
      undecidedState.direction ≠ Direction.Horizontal ∧
      undecidedState.direction ≠ Direction.Vertical ∧
      perSampleProjection (dampUpdate undecidedState backwardPoint.scenePos) < 0) ∧
    (unownedTouchEvent undecidedState [backwardPoint] 100).1.status
      = Status.WaitingForTouch :=
  ⟨⟨by decide, by decide, by decide, by decide, by decide,
      by norm_num [perSampleProjection, dampUpdate, DampedPointF.update, clampToward,
        projectOntoDirectionVector, undecidedState, backwardPoint, baseState]⟩,
    uc_c4_direction_check.1 undecidedState [backwardPoint] 100 backwardPoint
      (by decide) (by decide) (by decide) (by decide) (by decide)
      (by norm_num [perSampleProjection, dampUpdate, DampedPointF.update, clampToward,
        projectOntoDirectionVector, undecidedState, backwardPoint, baseState])⟩

/-- C5: in state `Undecided`, a moving update of the candidate touch whose
accumulated raw (unprojected) squared Euclidean distance from the gesture
start exceeds the square of `maxDistance` — while the recognition threshold
has not been crossed (and the sample passed the direction check with the
composition window elapsed) — rejects the gesture to `WaitingForTouch`. -/
theorem uc_c5_max_distance_reject :
    ∀ (st : RecState) (pts : List TouchPoint) (now : ℤ) (tp : TouchPoint),
      st.status = Status.Undecided →
      fetchTargetTouchPoint st pts = some tp →
      tp.state ≠ TouchPointState.released →
      movingInRightDirection (dampUpdate st tp.scenePos) = true →
      isWithinTouchCompositionWindow (dampUpdate st tp.scenePos) now = false →
      movedFarEnoughAlongGestureAxis (dampUpdate st tp.scenePos) = false →
      squaredDistanceFromStart (dampUpdate st tp.scenePos) >
        st.maxDistance * st.maxDistance →
      (unownedTouchEvent st pts now).1.status = Status.WaitingForTouch := by
  intro st pts now tp hstat hfetch hrel hmov hwin hfar hdist
  have hpast : isPastMaxDistance (dampUpdate st tp.scenePos) = true := by
    unfold isPastMaxDistance
    exact decide_eq_true hdist
  exact (unowned_reject_pastMax st pts now tp hstat hfetch hrel hmov hwin hfar hpast).1

theorem uc_c5_witness :
    (sidewaysState.status = Status.Undecided ∧
      fetchTargetTouchPoint sidewaysState [sidewaysPoint] = some sidewaysPoint ∧
      sidewaysPoint.state ≠ TouchPointState.released ∧
      movingInRightDirection (dampUpdate sidewaysState sidewaysPoint.scenePos) = true ∧
      isWithinTouchCompositionWindow (dampUpdate sidewaysState sidewaysPoint.scenePos) 100
        = false ∧
      movedFarEnoughAlongGestureAxis (dampUpdate sidewaysState sidewaysPoint.scenePos)
        = false ∧
      squaredDistanceFromStart (dampUpdate sidewaysState sidewaysPoint.scenePos) >
        sidewaysState.maxDistance * sidewaysState.maxDistance) ∧
    (unownedTouchEvent sidewaysState [sidewaysPoint] 100).1.status
      = Status.WaitingForTouch :=
  ⟨⟨by decide, by decide, by decide,
      by norm_num [movingInRightDirection, perSampleProjection, projectOntoDirectionVector,
        dampUpdate, DampedPointF.update, clampToward, sidewaysState, sidewaysPoint, baseState],
      by decide,
      by norm_num [movedFarEnoughAlongGestureAxis, totalGestureProjection,
        projectOntoDirectionVector, dampUpdate, DampedPointF.update, clampToward,
        sidewaysState, sidewaysPoint, baseState],
      by norm_num [squaredDistanceFromStart, dampUpdate, DampedPointF.update, clampToward,
        sidewaysState, sidewaysPoint, baseState]⟩,
    uc_c5_max_distance_reject sidewaysState [sidewaysPoint] 100 sidewaysPoint
      (by decide) (by decide) (by decide)
      (by norm_num [movingInRightDirection, perSampleProjection, projectOntoDirectionVector,
        dampUpdate, DampedPointF.update, clampToward, sidewaysState, sidewaysPoint, baseState])
      (by decide)
      (by norm_num [movedFarEnoughAlongGestureAxis, totalGestureProjection,
        projectOntoDirectionVector, dampUpdate, DampedPointF.update, clampToward,
        sidewaysState, sidewaysPoint, baseState])
      (by norm_num [squaredDistanceFromStart, dampUpdate, DampedPointF.update, clampToward,
        sidewaysState, sidewaysPoint, baseState])⟩

/-- C2: every rejection of a gesture while `Undecided` — wrong-direction
movement, exceeding `maxDistance`, the recognition-timer timeout, or a second
touch pressing within the composition window — ends with status
`WaitingForTouch`, withdraws the candidacy for the touch id from the broker
(`removeCandidateOwnerForTouch`), and registers the recognizer as a watcher
for the original touch id (`addTouchWatcher`). -/
theorem uc_c2_rejections_reset_and_watch :
    (∀ (st : RecState) (pts : List TouchPoint) (now : ℤ) (tp : TouchPoint),
        st.status = Status.Undecided →
        fetchTargetTouchPoint st pts = some tp →
        tp.state ≠ TouchPointState.released →
        movingInRightDirection (dampUpdate st tp.scenePos) = false →
        ((unownedTouchEvent st pts now).1.status = Status.WaitingForTouch ∧
          Action.removeCandidateOwnerForTouch st.touchId ∈ (unownedTouchEvent st pts now).2 ∧
          Action.addTouchWatcher st.touchId ∈ (unownedTouchEvent st pts now).2)) ∧
    (∀ (st : RecState) (pts : List TouchPoint) (now : ℤ) (tp : TouchPoint),
        st.status = Status.Undecided →
        fetchTargetTouchPoint st pts = some tp →
        tp.state ≠ TouchPointState.released →
        movingInRightDirection (dampUpdate st tp.scenePos) = true →
        isWithinTouchCompositionWindow (dampUpdate st tp.scenePos) now = false →
        movedFarEnoughAlongGestureAxis (dampUpdate st tp.scenePos) = false →
        isPastMaxDistance (dampUpdate st tp.scenePos) = true →
        ((unownedTouchEvent st pts now).1.status = Status.WaitingForTouch ∧
          Action.removeCandidateOwnerForTouch st.touchId ∈ (unownedTouchEvent st pts now).2 ∧
          Action.addTouchWatcher st.touchId ∈ (unownedTouchEvent st pts now).2)) ∧
    (∀ st : RecState,
        st.status = Status.Undecided →
        ((rejectGesture st).1.status = Status.WaitingForTouch ∧
          Action.removeCandidateOwnerForTouch st.touchId ∈ (rejectGesture st).2 ∧
          Action.addTouchWatcher st.touchId ∈ (rejectGesture st).2)) ∧
    (∀ (st : RecState) (pts : List TouchPoint) (now : ℤ),
        st.status = Status.Undecided →
        pts.any (fun tp => decide (tp.state = TouchPointState.pressed)) = true →
        isWithinTouchCompositionWindow st now = true →
        ((touchEvent st true true pts now).1.status = Status.WaitingForTouch ∧
          Action.removeCandidateOwnerForTouch st.touchId
            ∈ (touchEvent st true true pts now).2.1 ∧
          Action.addTouchWatcher st.touchId ∈ (touchEvent st true true pts now).2.1)) := by
  refine ⟨?_, ?_, ?_, ?_⟩
  · intro st pts now tp hstat hfetch hrel hmov
    obtain ⟨h1, h2⟩ := unowned_reject_wrongDirection st pts now tp hstat hfetch hrel hmov
    refine ⟨h1, ?_, ?_⟩ <;> rw [h2] <;> simp
  · intro st pts now tp hstat hfetch hrel hmov hwin hfar hpast
    obtain ⟨h1, h2⟩ := unowned_reject_pastMax st pts now tp hstat hfetch hrel hmov hwin hfar hpast
    refine ⟨h1, ?_, ?_⟩ <;> rw [h2] <;> simp
  · intro st hstat
    have hacts := setStatus_undecided_to_waiting st hstat
    unfold rejectGesture
    rw [if_pos hstat]
    simp [setStatus_status, hacts]
  · intro st pts now hstat hpress hwin
    have hacts := setStatus_undecided_to_waiting st hstat
    unfold touchEvent
    rw [hstat]
    simp only [touchEvent_undecided, hpress, hwin]
    simp [setStatus_status, hacts]

theorem uc_c2_witness :
    ((undecidedState.status = Status.Undecided ∧
        movingInRightDirection (dampUpdate undecidedState backwardPoint.scenePos) = false) ∧
      (unownedTouchEvent undecidedState [backwardPoint] 100).1.status
          = Status.WaitingForTouch ∧
        Action.removeCandidateOwnerForTouch undecidedState.touchId
          ∈ (unownedTouchEvent undecidedState [backwardPoint] 100).2 ∧
        Action.addTouchWatcher undecidedState.touchId
          ∈ (unownedTouchEvent undecidedState [backwardPoint] 100).2) ∧
    ((isPastMaxDistance (dampUpdate sidewaysState sidewaysPoint.scenePos) = true) ∧
      (unownedTouchEvent sidewaysState [sidewaysPoint] 100).1.status
          = Status.WaitingForTouch ∧
        Action.removeCandidateOwnerForTouch sidewaysState.touchId
          ∈ (unownedTouchEvent sidewaysState [sidewaysPoint] 100).2 ∧
        Action.addTouchWatcher sidewaysState.touchId
          ∈ (unownedTouchEvent sidewaysState [sidewaysPoint] 100).2) ∧
    ((rejectGesture undecidedState).1.status = Status.WaitingForTouch ∧
      Action.removeCandidateOwnerForTouch undecidedState.touchId
        ∈ (rejectGesture undecidedState).2 ∧
      Action.addTouchWatcher undecidedState.touchId ∈ (rejectGesture undecidedState).2) ∧
    ((isWithinTouchCompositionWindow freshUndecidedState 30 = true) ∧
      (touchEvent freshUndecidedState true true [secondPressPoint] 30).1.status
          = Status.WaitingForTouch ∧
        Action.removeCandidateOwnerForTouch freshUndecidedState.touchId
          ∈ (touchEvent freshUndecidedState true true [secondPressPoint] 30).2.1 ∧
        Action.addTouchWatcher freshUndecidedState.touchId
          ∈ (touchEvent freshUndecidedState true true [secondPressPoint] 30).2.1) :=
  ⟨⟨⟨by decide,
      by
        norm_num [movingInRightDirection, perSampleProjection, projectOntoDirectionVector,
          dampUpdate, DampedPointF.update, clampToward, undecidedState, backwardPoint,
          baseState]
        exact ⟨by decide, by decide⟩⟩,
    uc_c2_rejections_reset_and_watch.1 undecidedState [backwardPoint] 100 backwardPoint
      (by decide) (by decide) (by decide)
      (by
        norm_num [movingInRightDirection, perSampleProjection, projectOntoDirectionVector,
          dampUpdate, DampedPointF.update, clampToward, undecidedState, backwardPoint,
          baseState]
        exact ⟨by decide, by decide⟩)⟩,
   ⟨by norm_num [isPastMaxDistance, squaredDistanceFromStart, dampUpdate,
        DampedPointF.update, clampToward, sidewaysState, sidewaysPoint, baseState],
    uc_c2_rejections_reset_and_watch.2.1 sidewaysState [sidewaysPoint] 100 sidewaysPoint
      (by decide) (by decide) (by decide)
      (by norm_num [movingInRightDirection, perSampleProjection, projectOntoDirectionVector,
        dampUpdate, DampedPointF.update, clampToward, sidewaysState, sidewaysPoint, baseState])
      (by decide)
      (by norm_num [movedFarEnoughAlongGestureAxis, totalGestureProjection,
        projectOntoDirectionVector, dampUpdate, DampedPointF.update, clampToward,
        sidewaysState, sidewaysPoint, baseState])
      (by norm_num [isPastMaxDistance, squaredDistanceFromStart, dampUpdate,
        DampedPointF.update, clampToward, sidewaysState, sidewaysPoint, baseState])⟩,
   uc_c2_rejections_reset_and_watch.2.2.1 undecidedState (by decide),
   ⟨by decide,
    uc_c2_rejections_reset_and_watch.2.2.2 freshUndecidedState [secondPressPoint] 30
      (by decide) (by decide) (by decide)⟩⟩

/-- C3 counterexample: in `undecidedState` (status `Undecided`, signed
direction `Rightwards`, threshold 10) the update `backwardPoint` at time 100
satisfies the claim's premises — composition window elapsed and total damped
movement projected onto the direction vector 98 > 10 — yet the recognizer
does not transition to `Recognized` and requests no ownership, because the
per-sample direction check rejects the gesture first. -/
theorem uc_c3_counterexample :
    undecidedState.status = Status.Undecided ∧
    isWithinTouchCompositionWindow (dampUpdate undecidedState backwardPoint.scenePos) 100
      = false ∧
    undecidedState.direction ≠ Direction.Horizontal ∧
    undecidedState.direction ≠ Direction.Vertical ∧
    totalGestureProjection (dampUpdate undecidedState backwardPoint.scenePos) >
      undecidedState.distanceThreshold ∧
    (unownedTouchEvent undecidedState [backwardPoint] 100).1.status ≠ Status.Recognized ∧
    Action.requestTouchOwnership undecidedState.touchId ∉
      (unownedTouchEvent undecidedState [backwardPoint] 100).2 := by
  have h := unowned_reject_wrongDirection undecidedState [backwardPoint] 100 backwardPoint
    (by decide) (by decide) (by decide)
    (by
      norm_num [movingInRightDirection, perSampleProjection, projectOntoDirectionVector,
        dampUpdate, DampedPointF.update, clampToward, undecidedState, backwardPoint, baseState]
      exact ⟨by decide, by decide⟩)
  refine ⟨by decide, by decide, by decide, by decide, ?_, ?_, ?_⟩
  · norm_num [totalGestureProjection, projectOntoDirectionVector, dampUpdate,
      DampedPointF.update, clampToward, undecidedState, backwardPoint, baseState]
  · rw [h.1]; decide
  · rw [h.2]; decide

/-- C3 (amended): in state `Undecided`, once the composition window has
elapsed, a moving update of the candidate touch whose accumulated damped
movement projected onto the direction vector exceeds `distanceThreshold`
(absolute value for symmetric `Horizontal`/`Vertical`, signed for the four
signed directions) — provided the per-sample direction check also passes —
makes the recognizer transition to `Recognized` and request touch ownership
from the broker. -/
theorem uc_c3_amended_recognition :
    ∀ (st : RecState) (pts : List TouchPoint) (now : ℤ) (tp : TouchPoint),
      st.status = Status.Undecided →
      fetchTargetTouchPoint st pts = some tp →
      tp.state ≠ TouchPointState.released →
      movingInRightDirection (dampUpdate st tp.scenePos) = true →
      isWithinTouchCompositionWindow (dampUpdate st tp.scenePos) now = false →
      ((st.direction = Direction.Horizontal ∨ st.direction = Direction.Vertical) →
        abs (totalGestureProjection (dampUpdate st tp.scenePos)) > st.distanceThreshold) →
      (st.direction ≠ Direction.Horizontal → st.direction ≠ Direction.Vertical →
        totalGestureProjection (dampUpdate st tp.scenePos) > st.distanceThreshold) →
      ((unownedTouchEvent st pts now).1.status = Status.Recognized ∧
        Action.requestTouchOwnership st.touchId ∈ (unownedTouchEvent st pts now).2) := by
  intro st pts now tp hstat hfetch hrel hmov hwin habs hsig
  have hfar : movedFarEnoughAlongGestureAxis (dampUpdate st tp.scenePos) = true := by
    unfold movedFarEnoughAlongGestureAxis
    by_cases hth : (dampUpdate st tp.scenePos).distanceThreshold ≤ 0
    · rw [if_pos hth]
    · rw [if_neg hth]
      by_cases hdir : (dampUpdate st tp.scenePos).direction = Direction.Horizontal ∨
          (dampUpdate st tp.scenePos).direction = Direction.Vertical
      · rw [if_pos hdir]
        exact decide_eq_true (habs hdir)
      · rw [if_neg hdir]
        push_neg at hdir
        exact decide_eq_true (hsig hdir.1 hdir.2)
  exact unowned_recognize st pts now tp hstat hfetch hrel hmov hwin hfar

theorem uc_c3_witness :
    (freshUndecidedState.status = Status.Undecided ∧
      movingInRightDirection (dampUpdate freshUndecidedState forwardPoint.scenePos) = true ∧
      isWithinTouchCompositionWindow (dampUpdate freshUndecidedState forwardPoint.scenePos) 100
        = false ∧
      totalGestureProjection (dampUpdate freshUndecidedState forwardPoint.scenePos) >
        freshUndecidedState.distanceThreshold) ∧
    (unownedTouchEvent freshUndecidedState [forwardPoint] 100).1.status
        = Status.Recognized ∧
      Action.requestTouchOwnership freshUndecidedState.touchId
        ∈ (unownedTouchEvent freshUndecidedState [forwardPoint] 100).2 :=
  ⟨⟨by decide,
    by norm_num [movingInRightDirection, perSampleProjection, projectOntoDirectionVector,
      dampUpdate, DampedPointF.update, clampToward, freshUndecidedState, forwardPoint,
      baseState],
    by decide,
    by norm_num [totalGestureProjection, projectOntoDirectionVector, dampUpdate,
      DampedPointF.update, clampToward, freshUndecidedState, forwardPoint, baseState]⟩,
   uc_c3_amended_recognition freshUndecidedState [forwardPoint] 100 forwardPoint
     (by decide) (by decide) (by decide)
     (by norm_num [movingInRightDirection, perSampleProjection, projectOntoDirectionVector,
       dampUpdate, DampedPointF.update, clampToward, freshUndecidedState, forwardPoint,
       baseState])
     (by decide)
     (by decide)
     (fun _ _ => by norm_num [totalGestureProjection, projectOntoDirectionVector, dampUpdate,
       DampedPointF.update, clampToward, freshUndecidedState, forwardPoint, baseState])⟩

/-- C6 counterexample: in `undecidedState`, the update `backwardPoint` at
time 30 arrives within the composition window (compositionTime 60 > 0, one
active touch that started at time 0, and 30 ≤ 0 + 60), yet the state does not
stay `Undecided`: the wrong-direction sample rejects the gesture. -/
theorem uc_c6_counterexample :
    undecidedState.status = Status.Undecided ∧
    isWithinTouchCompositionWindow (dampUpdate undecidedState backwardPoint.scenePos) 30
      = true ∧
    (unownedTouchEvent undecidedState [backwardPoint] 30).1.status ≠ Status.Undecided := by
  have h := unowned_reject_wrongDirection undecidedState [backwardPoint] 30 backwardPoint
    (by decide) (by decide) (by decide)
    (by
      norm_num [movingInRightDirection, perSampleProjection, projectOntoDirectionVector,
        dampUpdate, DampedPointF.update, clampToward, undecidedState, backwardPoint, baseState]
      exact ⟨by decide, by decide⟩)
  exact ⟨by decide, by decide, by rw [h.1]; decide⟩

/-- C6 (amended): while in state `Undecided`, recognition (threshold and
max-distance evaluation) is deferred whenever compositionTime > 0, the
active-touch registry is non-empty, and the current time is at most the most
recent active-touch start time plus compositionTime; until then every moving
update of the candidate touch that passes the per-sample direction check
leaves the state `Undecided` and emits nothing. -/
theorem uc_c6_amended_composition_deferral :
    ∀ (st : RecState) (pts : List TouchPoint) (now : ℤ) (tp : TouchPoint),
      st.status = Status.Undecided →
      fetchTargetTouchPoint st pts = some tp →
      tp.state ≠ TouchPointState.released →
      movingInRightDirection (dampUpdate st tp.scenePos) = true →
      0 < st.compositionTime →
      st.activeTouches ≠ [] →
      now ≤ mostRecentStartTime st.activeTouches + st.compositionTime →
      ((unownedTouchEvent st pts now).1.status = Status.Undecided ∧
        (unownedTouchEvent st pts now).2 = []) := by
  intro st pts now tp hstat hfetch hrel hmov hct hne hle
  have hwin : isWithinTouchCompositionWindow (dampUpdate st tp.scenePos) now = true := by
    unfold isWithinTouchCompositionWindow
    have hne1 : (dampUpdate st tp.scenePos).activeTouches.isEmpty = false := by
      simp [dampUpdate, List.isEmpty_iff, hne]
    simp only [dampUpdate] at hne1 ⊢
    simp [hne1, hct, hle]
  exact unowned_wait_withinWindow st pts now tp hstat hfetch hrel hmov hwin

theorem uc_c6_witness :
    (freshUndecidedState.status = Status.Undecided ∧
      movingInRightDirection (dampUpdate freshUndecidedState forwardPoint.scenePos) = true ∧
      0 < freshUndecidedState.compositionTime ∧
      freshUndecidedState.activeTouches ≠ [] ∧
      (30 : ℤ) ≤ mostRecentStartTime freshUndecidedState.activeTouches +
        freshUndecidedState.compositionTime) ∧
    (unownedTouchEvent freshUndecidedState [forwardPoint] 30).1.status
        = Status.Undecided ∧
      (unownedTouchEvent freshUndecidedState [forwardPoint] 30).2 = [] :=
  ⟨⟨by decide,
    by norm_num [movingInRightDirection, perSampleProjection, projectOntoDirectionVector,
      dampUpdate, DampedPointF.update, clampToward, freshUndecidedState, forwardPoint,
      baseState],
    by decide, by decide, by decide⟩,
   uc_c6_amended_composition_deferral freshUndecidedState [forwardPoint] 30 forwardPoint
     (by decide) (by decide) (by decide)
     (by norm_num [movingInRightDirection, perSampleProjection, projectOntoDirectionVector,
       dampUpdate, DampedPointF.update, clampToward, freshUndecidedState, forwardPoint,
       baseState])
     (by decide) (by decide) (by decide)⟩

/-- C7: a single press arriving in state `WaitingForTouch` outside the
composition window, with recognition not immediate/disabled but the
recognition configuration inconsistent
(¬(distanceThreshold < maxDistance ∧ compositionTime < maxTime)), makes the
recognizer decline: a diagnostic is emitted, the status stays
`WaitingForTouch`, the event is passed through unclaimed (ignored), and no
candidacy or ownership request is registered with the broker. -/
theorem uc_c7_config_inconsistency_declines :
    ∀ (st : RecState) (now : ℤ) (tp : TouchPoint),
      st.status = Status.WaitingForTouch →
      tp.state = TouchPointState.pressed →
      isWithinTouchCompositionWindow st now = false →
      recognitionIsDisabled st = false →
      ¬(st.distanceThreshold < st.maxDistance ∧ st.compositionTime < st.maxTime) →
      ((touchEvent st true true [tp] now).1.status = Status.WaitingForTouch ∧
        Action.diagnosticWarning ∈ (touchEvent st true true [tp] now).2.1 ∧
        (touchEvent st true true [tp] now).2.2 = some false ∧
        ∀ i : ℤ,
          Action.addCandidateOwnerForTouch i ∉ (touchEvent st true true [tp] now).2.1 ∧
          Action.requestTouchOwnership i ∉ (touchEvent st true true [tp] now).2.1) := by
  intro st now tp hstat hpress hwin hdis hcfg
  have hsan : sanityCheckRecognitionProperties st = false := by
    unfold sanityCheckRecognitionProperties
    rw [hdis, Bool.false_or]
    by_cases h1 : st.distanceThreshold < st.maxDistance
    · have h2 : ¬st.compositionTime < st.maxTime := fun h2 => hcfg ⟨h1, h2⟩
      simp [h2]
    · simp [h1]
  unfold touchEvent
  rw [hstat]
  simp only [touchEvent_absent]
  simp [hpress, hwin, scanPresses, hsan, watchPressedTouchPoints, hstat]

theorem uc_c7_witness :
    (badConfigState.status = Status.WaitingForTouch ∧
      pressPoint.state = TouchPointState.pressed ∧
      isWithinTouchCompositionWindow badConfigState 100 = false ∧
      recognitionIsDisabled badConfigState = false ∧
      ¬(badConfigState.distanceThreshold < badConfigState.maxDistance ∧
        badConfigState.compositionTime < badConfigState.maxTime)) ∧
    ((touchEvent badConfigState true true [pressPoint] 100).1.status
        = Status.WaitingForTouch ∧
      Action.diagnosticWarning ∈ (touchEvent badConfigState true true [pressPoint] 100).2.1 ∧
      (touchEvent badConfigState true true [pressPoint] 100).2.2 = some false ∧
      ∀ i : ℤ,
        Action.addCandidateOwnerForTouch i
          ∉ (touchEvent badConfigState true true [pressPoint] 100).2.1 ∧
        Action.requestTouchOwnership i
          ∉ (touchEvent badConfigState true true [pressPoint] 100).2.1) :=
  ⟨⟨by decide, by decide, by decide, by decide, by decide⟩,
   uc_c7_config_inconsistency_declines badConfigState 100 pressPoint
     (by decide) (by decide) (by decide) (by decide) (by decide)⟩

theorem q_smooth_ne (a b : ℚ) (hne : a ≠ b) : a + 2 / 5 * (b - a) ≠ a := by
  intro hEq
  apply hne
  have h0 : (2 / 5 : ℚ) * (b - a) = 0 := by linarith
  rcases mul_eq_zero.mp h0 with h1 | h1
  · norm_num at h1
  · linarith

theorem setStatus_notifs (st : RecState) (n : Status)
    (h : st.status = Status.Recognized → n ≠ Status.Undecided) :
    ∀ a ∈ (setStatus st n).2, notifReflectsChange st (setStatus st n).1 a = true := by
  by_cases he : n = st.status
  · simp [setStatus, he]
  · cases hs : st.status <;> cases n <;>
      simp_all [setStatus, notifReflectsChange, dragging, pressed]

theorem setPublicPos_direction (st : RecState) (p : QPointF) :
    (setPublicPos st p).1.direction = st.direction := rfl

theorem setPublicPos_startPos (st : RecState) (p : QPointF) :
    (setPublicPos st p).1.startPos = st.startPos := rfl

theorem horizontal_vertical_exclusive (d : Direction)
    (h : Direction.isVertical d = true) : Direction.isHorizontal d = false := by
  cases d <;> revert h <;> decide

theorem smoothedToward_x_ne (st : RecState) (c t : QPointF) (hx : c.x ≠ t.x) :
    (smoothedToward st c t).x ≠ c.x := by
  unfold smoothedToward
  by_cases hsm : st.status = Status.Recognized ∧ recognitionIsDisabled st = false
  · simp only [if_pos hsm]
    exact q_smooth_ne c.x t.x hx
  · simp only [if_neg hsm]
    exact Ne.symm hx

theorem smoothedToward_y_ne (st : RecState) (c t : QPointF) (hy : c.y ≠ t.y) :
    (smoothedToward st c t).y ≠ c.y := by
  unfold smoothedToward
  by_cases hsm : st.status = Status.Recognized ∧ recognitionIsDisabled st = false
  · simp only [if_pos hsm]
    exact q_smooth_ne c.y t.y hy
  · simp only [if_neg hsm]
    exact Ne.symm hy

theorem setPublicPos_x_ne (st : RecState) (p : QPointF) (hx : st.publicPos.x ≠ p.x) :
    (setPublicPos st p).1.publicPos.x ≠ st.publicPos.x :=
  smoothedToward_x_ne st st.publicPos p hx

theorem setPublicPos_y_ne (st : RecState) (p : QPointF) (hy : st.publicPos.y ≠ p.y) :
    (setPublicPos st p).1.publicPos.y ≠ st.publicPos.y :=
  smoothedToward_y_ne st st.publicPos p hy

theorem setPublicPos_pos_ne_of_x (st : RecState) (p : QPointF)
    (hx : st.publicPos.x ≠ p.x) : st.publicPos ≠ (setPublicPos st p).1.publicPos :=
  fun hEq => setPublicPos_x_ne st p hx (congrArg QPointF.x hEq).symm

theorem setPublicPos_pos_ne_of_y (st : RecState) (p : QPointF)
    (hy : st.publicPos.y ≠ p.y) : st.publicPos ≠ (setPublicPos st p).1.publicPos :=
  fun hEq => setPublicPos_y_ne st p hy (congrArg QPointF.y hEq).symm

theorem setPublicPos_distance_ne_h (st : RecState) (p : QPointF)
    (hx : st.publicPos.x ≠ p.x) (hdir : Direction.isHorizontal st.direction = true) :
    distance st ≠ distance (setPublicPos st p).1 := by
  have hxne := setPublicPos_x_ne st p hx
  have hd : (setPublicPos st p).1.direction = st.direction := setPublicPos_direction st p
  have hs : (setPublicPos st p).1.startPos = st.startPos := setPublicPos_startPos st p
  unfold distance
  rw [hd, hs, hdir]
  simp only [if_true]
  intro hEq
  exact hxne (by linarith)

theorem setPublicPos_distance_ne_v (st : RecState) (p : QPointF)
    (hy : st.publicPos.y ≠ p.y) (hdir : Direction.isHorizontal st.direction = false) :
    distance st ≠ distance (setPublicPos st p).1 := by
  have hyne := setPublicPos_y_ne st p hy
  have hd : (setPublicPos st p).1.direction = st.direction := setPublicPos_direction st p
  have hs : (setPublicPos st p).1.startPos = st.startPos := setPublicPos_startPos st p
  unfold distance
  rw [hd, hs, hdir]
  simp only [Bool.false_eq_true, if_false]
  intro hEq
  exact hyne (by linarith)

theorem setPublicPos_notifs (st : RecState) (p : QPointF) :
    ∀ a ∈ (setPublicPos st p).2, notifReflectsChange st (setPublicPos st p).1 a = true := by
  intro a ha
  have hpos : (setPublicPos st p).2 =
      (if st.publicPos.x ≠ p.x then
        Action.touchPosChanged (setPublicPos st p).1.publicPos ::
          (if Direction.isHorizontal st.direction then
            [Action.distanceChanged (distance (setPublicPos st p).1)] else [])
      else []) ++
      (if st.publicPos.y ≠ p.y then
        Action.touchPosChanged (setPublicPos st p).1.publicPos ::
          (if Direction.isVertical st.direction then
            [Action.distanceChanged (distance (setPublicPos st p).1)] else [])
      else []) := rfl
  rw [hpos] at ha
  have htp : notifReflectsChange st (setPublicPos st p).1
      (Action.touchPosChanged (setPublicPos st p).1.publicPos) = true ∨
      ¬(st.publicPos.x ≠ p.x) ∧ ¬(st.publicPos.y ≠ p.y) := by
    by_cases hx : st.publicPos.x ≠ p.x
    · left
      simp [notifReflectsChange, setPublicPos_pos_ne_of_x st p hx]
    · by_cases hy : st.publicPos.y ≠ p.y
      · left
        simp [notifReflectsChange, setPublicPos_pos_ne_of_y st p hy]
      · right; exact ⟨hx, hy⟩
  rcases List.mem_append.mp ha with ha1 | ha2
  · by_cases hx : st.publicPos.x ≠ p.x
    · rw [if_pos hx] at ha1
      rcases List.mem_cons.mp ha1 with rfl | ha1'
      · rcases htp with h | ⟨hh, _⟩
        · exact h
        · exact absurd hx hh
      · by_cases hdir : Direction.isHorizontal st.direction = true
        · rw [if_pos hdir] at ha1'
          rcases List.mem_singleton.mp ha1' with rfl
          simp [notifReflectsChange, (setPublicPos_distance_ne_h st p hx hdir).symm,
            setPublicPos_distance_ne_h st p hx hdir]
        · rw [if_neg hdir] at ha1'
          exact absurd ha1' (List.not_mem_nil a)
    · rw [if_neg hx] at ha1
      exact absurd ha1 (List.not_mem_nil a)
  · by_cases hy : st.publicPos.y ≠ p.y
    · rw [if_pos hy] at ha2
      rcases List.mem_cons.mp ha2 with rfl | ha2'
      · rcases htp with h | ⟨_, hh⟩
        · exact h
        · exact absurd hy hh
      · by_cases hdir : Direction.isVertical st.direction = true
        · rw [if_pos hdir] at ha2'
          rcases List.mem_singleton.mp ha2' with rfl
          have hdh : Direction.isHorizontal st.direction = false :=
            horizontal_vertical_exclusive st.direction (by simpa using hdir)
          simp [notifReflectsChange, (setPublicPos_distance_ne_v st p hy hdh).symm,
            setPublicPos_distance_ne_v st p hy hdh]
        · rw [if_neg hdir] at ha2'
          exact absurd ha2' (List.not_mem_nil a)
    · rw [if_neg hy] at ha2
      exact absurd ha2 (List.not_mem_nil a)

theorem QPointF.ne_of_x {a b : QPointF} (h : a.x ≠ b.x) : a ≠ b :=
  fun hh => h (congrArg QPointF.x hh)

theorem QPointF.ne_of_y {a b : QPointF} (h : a.y ≠ b.y) : a ≠ b :=
  fun hh => h (congrArg QPointF.y hh)

theorem setPublicScenePos_eq (st : RecState) (p : QPointF)
    (hc : ¬(st.publicScenePos.x = p.x ∧ st.publicScenePos.y = p.y)) :
    setPublicScenePos st p =
      (updateSceneDistance { st with publicScenePos := smoothedToward st st.publicScenePos p },
       (if st.sceneDistance ≠
            (updateSceneDistance
              { st with
                  publicScenePos := smoothedToward st st.publicScenePos p }).sceneDistance then
          [Action.sceneDistanceChanged
            (updateSceneDistance
              { st with
                  publicScenePos := smoothedToward st st.publicScenePos p }).sceneDistance]
        else []) ++
        [Action.touchScenePosChanged (smoothedToward st st.publicScenePos p)]) := by
  unfold setPublicScenePos
  rw [if_neg hc]

theorem setPublicScenePos_notifs (st : RecState) (p : QPointF) :
    ∀ a ∈ (setPublicScenePos st p).2, notifReflectsChange st (setPublicScenePos st p).1 a
      = true := by
  intro a ha
  by_cases hc : st.publicScenePos.x = p.x ∧ st.publicScenePos.y = p.y
  · have hnil : (setPublicScenePos st p).2 = [] := by
      unfold setPublicScenePos
      rw [if_pos hc]
    rw [hnil] at ha
    exact absurd ha (List.not_mem_nil a)
  · rw [setPublicScenePos_eq st p hc] at ha ⊢
    rcases List.mem_append.mp ha with ha1 | ha2
    · by_cases hsd : st.sceneDistance =
          (updateSceneDistance
            { st with publicScenePos := smoothedToward st st.publicScenePos p }).sceneDistance
      · rw [if_neg (not_not_intro hsd)] at ha1
        exact absurd ha1 (List.not_mem_nil a)
      · rw [if_pos hsd] at ha1
        rcases List.mem_singleton.mp ha1 with rfl
        simp [notifReflectsChange, hsd]
    · rcases List.mem_singleton.mp ha2 with rfl
      have hpre : st.publicScenePos ≠ smoothedToward st st.publicScenePos p := by
        rcases not_and_or.mp hc with hx | hy
        · exact QPointF.ne_of_x (Ne.symm (smoothedToward_x_ne st st.publicScenePos p hx))
        · exact QPointF.ne_of_y (Ne.symm (smoothedToward_y_ne st st.publicScenePos p hy))
      simp [notifReflectsChange, hpre, updateSceneDistance]

/-- C8: every outbound notification of the recognizer's setters — status
changed, dragging-state changed, pressed-state changed, position changed,
scene-position changed, distance changed, scene-distance changed — fires only
when the underlying value actually changes; no notification is emitted when
the new value equals the stored one.  (`setStatus` is never invoked with
`Undecided` on a `Recognized` instance: the only call site of
`setStatus(Undecided)` runs with status `WaitingForTouch`, which the
hypothesis records.) -/
theorem uc_c8_notifications_on_change :
    ∀ (st : RecState) (n : Status) (p q : QPointF),
      (st.status = Status.Recognized → n ≠ Status.Undecided) →
      ((∀ a ∈ (setStatus st n).2, notifReflectsChange st (setStatus st n).1 a = true) ∧
        (∀ a ∈ (setPublicPos st p).2, notifReflectsChange st (setPublicPos st p).1 a = true) ∧
        (∀ a ∈ (setPublicScenePos st q).2,
          notifReflectsChange st (setPublicScenePos st q).1 a = true)) :=
  fun st n p q h =>
    ⟨setStatus_notifs st n h, setPublicPos_notifs st p, setPublicScenePos_notifs st q⟩

theorem uc_c8_witness :
    (baseState.status = Status.Recognized → Status.Undecided ≠ Status.Undecided) ∧
    ((∀ a ∈ (setStatus baseState Status.Undecided).2,
        notifReflectsChange baseState (setStatus baseState Status.Undecided).1 a = true) ∧
      (∀ a ∈ (setPublicPos baseState ⟨3, 4⟩).2,
        notifReflectsChange baseState (setPublicPos baseState ⟨3, 4⟩).1 a = true) ∧
      (∀ a ∈ (setPublicScenePos baseState ⟨3, 4⟩).2,
        notifReflectsChange baseState (setPublicScenePos baseState ⟨3, 4⟩).1 a = true)) :=
  ⟨by decide,
   uc_c8_notifications_on_change baseState Status.Undecided ⟨3, 4⟩ ⟨3, 4⟩ (by decide)⟩

theorem assoc_functional {l : List (ℤ × ℕ)} (h : (l.map Prod.fst).Nodup) :
    ∀ p ∈ l, ∀ q ∈ l, p.1 = q.1 → p.2 = q.2 := by
  induction l with
  | nil => simp
  | cons hd tl ih =>
      simp only [List.map_cons, List.nodup_cons] at h
      intro p hp q hq hpq
      rcases List.mem_cons.mp hp with rfl | hp' <;> rcases List.mem_cons.mp hq with rfl | hq'
      · rfl
      · exact absurd (hpq ▸ List.mem_map_of_mem Prod.fst hq') h.1
      · exact absurd (hpq ▸ List.mem_map_of_mem Prod.fst hp') h.1
      · exact ih h.2 p hp' q hq' hpq

theorem touchOwnershipEvent_lost_status (st : RecState) (i : ℤ) :
    (touchOwnershipEvent st false i).1.status = Status.WaitingForTouch := by
  unfold touchOwnershipEvent
  simp [setStatus_status]

/-- C1: when the broker grants ownership of a touch id to one recognizer,
the ownership map keeps at most one owner per touch id (with the requester as
the owner of the granted id), every other recognizer holding state for that
id is reset to `WaitingForTouch` via its ownership-lost handler, and each
such recognizer receives an ownership-lost notification. -/
theorem uc_c1_single_ownership :
    ∀ (sys : BrokerSystem) (touchId : ℤ) (r : ℕ),
      (sys.ownershipMap.map Prod.fst).Nodup →
      (((requestTouchOwnership sys touchId r).1.ownershipMap.map Prod.fst).Nodup ∧
        (∀ p ∈ (requestTouchOwnership sys touchId r).1.ownershipMap,
          ∀ q ∈ (requestTouchOwnership sys touchId r).1.ownershipMap,
            p.1 = q.1 → p.2 = q.2) ∧
        (touchId, r) ∈ (requestTouchOwnership sys touchId r).1.ownershipMap ∧
        (∀ rec ∈ (requestTouchOwnership sys touchId r).1.recognizers,
          rec.rid ≠ r → rec.st.touchId = touchId →
            rec.st.status = Status.WaitingForTouch) ∧
        (∀ rec ∈ sys.recognizers,
          rec.rid ≠ r → rec.st.touchId = touchId →
            rec.st.status ≠ Status.WaitingForTouch →
              OwnershipNotification.lost rec.rid touchId
                ∈ (requestTouchOwnership sys touchId r).2)) := by
  intro sys touchId r hnodup
  have hkeys : ((requestTouchOwnership sys touchId r).1.ownershipMap.map Prod.fst).Nodup := by
    simp only [requestTouchOwnership, List.map_cons]
    refine List.nodup_cons.mpr ⟨?_, ?_⟩
    · intro hmem
      obtain ⟨e, he, hfst⟩ := List.mem_map.mp hmem
      exact (of_decide_eq_true (List.mem_filter.mp he).2) hfst
    · exact hnodup.sublist (List.Sublist.map _ (List.filter_sublist _))
  refine ⟨hkeys, assoc_functional hkeys, ?_, ?_, ?_⟩
  · simp [requestTouchOwnership]
  · intro rec hmem hrid htid
    simp only [requestTouchOwnership, List.mem_map] at hmem
    obtain ⟨rec0, hrec0, rfl⟩ := hmem
    by_cases hr : rec0.rid = r
    · rw [if_pos hr] at hrid
      exact absurd hr hrid
    · rw [if_neg hr] at hrid htid ⊢
      by_cases hh : holdsStateFor rec0 touchId = true
      · rw [if_pos hh]
        exact touchOwnershipEvent_lost_status rec0.st touchId
      · rw [if_neg hh] at htid ⊢
        simpa [holdsStateFor, htid] using hh
  · intro rec hmem hrid htid hstat
    have hh : holdsStateFor rec touchId = true := by
      simp [holdsStateFor, htid, hstat]
    simp only [requestTouchOwnership]
    refine List.mem_cons_of_mem _ ?_
    refine List.mem_map.mpr ⟨rec, ?_, rfl⟩
    exact List.mem_filter.mpr ⟨hmem, by simp [hrid, hh]⟩

theorem uc_c1_witness :
    ((demoSystem.ownershipMap.map Prod.fst).Nodup) ∧
    (((requestTouchOwnership demoSystem 7 1).1.ownershipMap.map Prod.fst).Nodup ∧
      (∀ p ∈ (requestTouchOwnership demoSystem 7 1).1.ownershipMap,
        ∀ q ∈ (requestTouchOwnership demoSystem 7 1).1.ownershipMap,
          p.1 = q.1 → p.2 = q.2) ∧
      ((7 : ℤ), 1) ∈ (requestTouchOwnership demoSystem 7 1).1.ownershipMap ∧
      (∀ rec ∈ (requestTouchOwnership demoSystem 7 1).1.recognizers,
        rec.rid ≠ 1 → rec.st.touchId = 7 →
          rec.st.status = Status.WaitingForTouch) ∧
      (∀ rec ∈ demoSystem.recognizers,
        rec.rid ≠ 1 → rec.st.touchId = 7 →
          rec.st.status ≠ Status.WaitingForTouch →
            OwnershipNotification.lost rec.rid 7
              ∈ (requestTouchOwnership demoSystem 7 1).2)) :=
  ⟨by decide, uc_c1_single_ownership demoSystem 7 1 (by decide)⟩

end DragGesture
